import Mathlib

/-!
# osbuildbootc: the `build-qcow2` / `vmshell` orchestrator

A shallow embedding of `cmd/osbuildbootc.go`.  The operating system is an
explicit value of type `World` that answers every call the program makes
(environment lookup, stat, mkdir, file write, child processes, remove), and
every function of the program returns, next to its Go result, the list of
calls it performed, in order.

Go strings are byte strings; here they are Lean strings, that is, valid
Unicode text.  Exit statuses are the eight bits Linux reports.  Flag parsing
by cobra is not modelled: an `Invocation` is an already parsed command line.
-/

namespace Osbuildbootc

/-! ## Errors and process states -/

/-- State of a child process that was started and waited for, as reported by
`os.ProcessState` on Linux: it exited with an 8-bit status, or it was
terminated by a signal. -/
inductive ProcessState
  | exited (code : Fin 256)
  | signaled (signal : String)
  deriving DecidableEq, Repr

/-- `(*os.ProcessState).ExitCode`: the exit status, or -1 when the process
was terminated by a signal. -/
def ProcessState.ExitCode : ProcessState → Int
  | .exited code => (code.val : Int)
  | .signaled _ => -1

/-- `(*os.ProcessState).Success`: exit status 0. -/
def ProcessState.Success : ProcessState → Bool
  | .exited code => code.val == 0
  | .signaled _ => false

/-- `(*os.ProcessState).String`. -/
def ProcessState.String : ProcessState → String
  | .exited code => "exit status " ++ Nat.repr code.val
  | .signaled signal => "signal: " ++ signal

/-- The dynamic types of the `error` values that occur in the program. -/
inductive GoError
  /-- `*exec.ExitError`: the child ran and did not complete successfully. -/
  | exitError (state : ProcessState)
  /-- An error of the `os` or `os/exec` package for a failed system call
  (`*fs.PathError`, `*exec.Error`, ...), with its message. -/
  | osError (msg : String)
  /-- `*fmt.wrapError`, the result of `fmt.Errorf` with one `%w` verb. -/
  | wrapError (msg : String) (err : GoError)
  /-- The error of a cobra positional-argument validator. -/
  | argsError (msg : String)
  deriving DecidableEq, Repr

/-- The `Error()` method. -/
def GoError.Error : GoError → String
  | .exitError state => state.String
  | .osError msg => msg
  | .wrapError msg _ => msg
  | .argsError msg => msg

/-- The `Unwrap()` method, where the dynamic type has one. -/
def GoError.Unwrap : GoError → Option GoError
  | .wrapError _ err => some err
  | _ => none

/-- The type assertion `err.(*exec.ExitError)`: it looks at the dynamic type
of `err` itself and does not follow `Unwrap`. -/
def GoError.asExitError : GoError → Option ProcessState
  | .exitError state => some state
  | _ => none

/-- What a Go function of result type `error` hands back: `nil`, an error
value, or a run-time panic that unwinds through it. -/
inductive Result
  | nil
  | error (err : GoError)
  | panic
  deriving DecidableEq, Repr

/-! ## The outside world -/

/-- Outcome of starting a child process and waiting for it. -/
inductive ChildOutcome
  | startFailed (msg : String)
  | finished (state : ProcessState)
  deriving DecidableEq, Repr

/-- The answers of the operating system.  For the calls that return an
`error`, `none` is success and `some msg` is a failure with message `msg`. -/
structure World where
  LookupEnv : String → Option String
  Stat : String → Option String
  MkdirAll : String → Nat → Option String
  WriteFile : String → String → Nat → Option String
  Remove : String → Option String
  Run : String → List String → ChildOutcome

/-- The calls the program makes, recorded in program order. -/
inductive Effect
  | lookupEnv (key : String)
  | stat (name : String)
  | mkdirAll (path : String) (perm : Nat)
  | writeFile (name : String) (data : String) (perm : Nat)
  /-- A child process `name args...` with stdout and stderr inherited;
  `stdin` tells whether standard input is inherited too. -/
  | run (name : String) (args : List String) (stdin : Bool)
  | remove (name : String)
  | infof (msg : String)
  | stderr (msg : String)
  deriving DecidableEq, Repr

/-- `(*exec.Cmd).Run` for a command whose stdio are the files of the parent:
`nil` when the child exits with status 0, an `*exec.ExitError` when it ran
and did not, another error when it could not be started. -/
def cmdRun (w : World) (name : String) (args : List String) : Option GoError :=
  match w.Run name args with
  | .startFailed msg => some (.osError msg)
  | .finished state => if state.Success then none else some (.exitError state)

/-- Modelled from the spec: `cmdutil.RunCmdSync` of `internal/pkg/cmdutil`,
which is not among the sources.  The spec (4.2): run the program with the
arguments, stdout and stderr inherited, block until it exits; on a non-zero
exit return an error carrying the exit code, distinguishable so that the
top-level dispatcher can propagate it; when the child cannot be started
return a spawn error. -/
def RunCmdSync (w : World) (cmdName : String) (args : List String) : Option GoError :=
  cmdRun w cmdName args

/-! ## Flags -/

/-- The package-level flag variables of `build-qcow2`.  `sizeMiB` is a
`uint64`. -/
structure Flags where
  sourceTransport : String
  targetImage : String
  targetInsecure : Bool
  skipFetchCheck : Bool
  sizeMiB : Nat
  deriving DecidableEq, Repr

/-- The defaults registered by `init()`. -/
def init : Flags :=
  { sourceTransport := "docker://"
    targetImage := ""
    targetInsecure := false
    skipFetchCheck := false
    sizeMiB := 10 * 1024 }

/-! ## The build configuration and its JSON form -/

/-- Modelled from the spec: `builddiskimpl.Config`, whose declaration is not
among the sources.  The fields are those of the composite literal in
`cmdBuildQcow2.RunE`; the spec (6) fixes the same names for the document. -/
structure Config where
  SourceTransport : String
  Source : String
  InstallArgs : List String
  Disk : String
  deriving DecidableEq, Repr

/-- Lower-case hexadecimal digit, the `hex` table of `encoding/json`. -/
def hex (n : Nat) : Char :=
  "0123456789abcdef".toList.getD n '0'

/-- One character of a JSON string as `encoding/json` writes it with HTML
escaping on (the setting of `json.Marshal`): the quote and the backslash
escaped, the named escapes for backspace, form feed, newline, carriage return
and tab (Go 1.22 and later name the first two), `\u00XX` for the other
control characters and for `<`, `>`, `&`, and `\u2028`, `\u2029`. -/
def jsonEscapeChar (c : Char) : List Char :=
  if c = '\\' ∨ c = '"' then ['\\', c]
  else if c = '\x08' then ['\\', 'b']
  else if c = '\x0c' then ['\\', 'f']
  else if c = '\n' then ['\\', 'n']
  else if c = '\r' then ['\\', 'r']
  else if c = '\t' then ['\\', 't']
  else if c.toNat < 0x20 ∨ c = '<' ∨ c = '>' ∨ c = '&' then
    ['\\', 'u', '0', '0', hex (c.toNat / 16), hex (c.toNat % 16)]
  else if c.toNat = 0x2028 ∨ c.toNat = 0x2029 then
    ['\\', 'u', '2', '0', '2', hex (c.toNat % 16)]
  else [c]

/-- A Go string as a JSON string literal. -/
def jsonString (s : String) : String :=
  "\"" ++ String.mk (s.toList.flatMap jsonEscapeChar) ++ "\""

/-- A non-nil `[]string` as a JSON array. -/
def jsonStringArray (xs : List String) : String :=
  "[" ++ ",".intercalate (xs.map jsonString) ++ "]"

/-- The document `json.Marshal` produces for a `Config`: the fields in
declaration order under their Go names. -/
def encodeConfig (config : Config) : String :=
  "\x7b\"SourceTransport\":" ++ jsonString config.SourceTransport ++
    ",\"Source\":" ++ jsonString config.Source ++
    ",\"InstallArgs\":" ++ jsonStringArray config.InstallArgs ++
    ",\"Disk\":" ++ jsonString config.Disk ++ "\x7d"

/-- `json.Marshal(&config)`.  Strings and string slices always encode, so the
error result is never produced. -/
def jsonMarshal (config : Config) : Except GoError String :=
  .ok (encodeConfig config)

/-- The value of the global `targetImage` after lines 41-43: the flag when
it is not empty, and `args[0]` otherwise. -/
def targetImageOf (flags : Flags) (source : String) : String :=
  if flags.targetImage = "" then source else flags.targetImage

/-- Lines 41-59 of `cmdBuildQcow2.RunE`: the default of `targetImage`, the
install arguments and the configuration literal. -/
def buildConfig (flags : Flags) (source : String) : Config :=
  let targetImage := targetImageOf flags source
  let installArgs : List String := []
  let installArgs :=
    if flags.targetInsecure then installArgs ++ ["--target-no-signature-verification"]
    else installArgs
  let installArgs :=
    if flags.skipFetchCheck then installArgs ++ ["--skip-fetch-check"] else installArgs
  let installArgs := installArgs ++ ["--target-imgref=" ++ targetImage]
  { SourceTransport := flags.sourceTransport
    Source := source
    InstallArgs := installArgs
    Disk := "/dev/disk/by-id/virtio-target" }

/-! ## The program -/

/-- `KVMPreflightCheck`. -/
def KVMPreflightCheck (w : World) : List Effect × Option GoError :=
  match w.LookupEnv "OSBUILD_NO_KVM" with
  | some _ => ([.lookupEnv "OSBUILD_NO_KVM"], none)
  | none =>
    match w.Stat "/dev/kvm" with
    | some msg =>
      ([.lookupEnv "OSBUILD_NO_KVM", .stat "/dev/kvm"],
        some (.wrapError
          ("failed to access /dev/kvm; you can set OSBUILD_NO_KVM to bypass this at the cost of performance: "
            ++ (GoError.osError msg).Error)
          (.osError msg)))
    | none => ([.lookupEnv "OSBUILD_NO_KVM", .stat "/dev/kvm"], none)

/-- `fmt.Sprintf("%dM", sizeMiB)`. -/
def sprintfSize (sizeMiB : Nat) : String :=
  Nat.repr sizeMiB ++ "M"

/-- The arguments of the `qemu-img` call of line 69. -/
def qemuImgArgs (dest : String) (sizeMiB : Nat) : List String :=
  ["create", "-f", "qcow2", dest, sprintfSize sizeMiB]

/-- `cmdBuildQcow2.RunE`.  Indexing `args` out of range panics. -/
def cmdBuildQcow2.RunE (w : World) (flags : Flags) (args : List String) :
    List Effect × Result :=
  match args[0]?, args[1]? with
  | some source, some dest =>
    match KVMPreflightCheck w with
    | (t0, some err) => (t0, .error err)
    | (t0, none) =>
      let t1 := t0 ++ [.mkdirAll "tmp" 0o755]
      match w.MkdirAll "tmp" 0o755 with
      | some msg => (t1, .error (.osError msg))
      | none =>
        let config := buildConfig flags source
        match jsonMarshal config with
        | .error err => (t1, .error err)
        | .ok buf =>
          let configPath := "tmp/config.json"
          let t2 := t1 ++ [.writeFile configPath buf 0o644]
          match w.WriteFile configPath buf 0o644 with
          | some msg => (t2, .error (.osError msg))
          | none =>
            let t3 := t2 ++ [.run "qemu-img" (qemuImgArgs dest flags.sizeMiB) false]
            match RunCmdSync w "qemu-img" (qemuImgArgs dest flags.sizeMiB) with
            | some err => (t3, .error err)
            | none =>
              let t4 := t3 ++
                [.infof ("Generating image; source=" ++ config.Source ++ " target="
                    ++ targetImageOf flags source),
                 .run "/usr/lib/osbuildbootc/qcow2.sh" [dest, configPath] false]
              match cmdRun w "/usr/lib/osbuildbootc/qcow2.sh" [dest, configPath] with
              | some err => (t4 ++ [.remove dest], .error err)
              | none => (t4, .nil)
  | _, _ => ([], .panic)

/-- `cmdVMShell.RunE`. -/
def cmdVMShell.RunE (w : World) (_args : List String) : List Effect × Result :=
  match cmdRun w "/usr/lib/osbuildbootc/vmshell.sh" [] with
  | some err => ([.run "/usr/lib/osbuildbootc/vmshell.sh" [] true], .error err)
  | none => ([.run "/usr/lib/osbuildbootc/vmshell.sh" [] true], .nil)

/-- `cobra.ExactArgs(n)`. -/
def ExactArgs (n : Nat) (args : List String) : Option GoError :=
  if args.length ≠ n then
    some (.argsError ("accepts " ++ Nat.repr n ++ " arg(s), received " ++ Nat.repr args.length))
  else none

/-- `cobra.OnlyValidArgs` for a command that declares no `ValidArgs`, as both
commands here: every argument is accepted. -/
def OnlyValidArgs (_args : List String) : Option GoError :=
  none

/-- `cobra.MatchAll` of two validators: the first error wins. -/
def MatchAll (p q : List String → Option GoError) (args : List String) : Option GoError :=
  match p args with
  | some err => some err
  | none => q args

/-- A parsed command line that selects one of the two commands defined in
this file: the values of the flag variables and the positional arguments. -/
inductive Invocation
  | buildQcow2 (flags : Flags) (args : List String)
  | vmshell (args : List String)
  deriving DecidableEq, Repr

/-- `rootCmd.Execute()` on a parsed command line: the `Args` validator of the
selected command, then its `RunE`.  The diagnostics cobra prints by itself
are not recorded. -/
def Execute (w : World) : Invocation → List Effect × Result
  | .buildQcow2 flags args =>
    match MatchAll (ExactArgs 2) OnlyValidArgs args with
    | some err => ([], .error err)
    | none => cmdBuildQcow2.RunE w flags args
  | .vmshell args =>
    match MatchAll (ExactArgs 0) OnlyValidArgs args with
    | some err => ([], .error err)
    | none => cmdVMShell.RunE w args

/-- The status the parent of the program observes after `os.Exit(code)`:
the low eight bits. -/
def exitStatus (code : Int) : Nat :=
  (code % 256).toNat

/-- `main`: the calls performed and the exit status of the program.  A panic
ends the program with status 2. -/
def main (w : World) (inv : Invocation) : List Effect × Nat :=
  match Execute w inv with
  | (t, .nil) => (t, 0)
  | (t, .error err) =>
    match err.asExitError with
    | some exitErr => (t, exitStatus exitErr.ExitCode)
    | none => (t ++ [.stderr ("error: " ++ err.Error ++ "\n")], exitStatus 1)
  | (t, .panic) => (t, 2)

/-! ## Definitions used to state the properties -/

/-- The install arguments in the words of the spec (4.3, step 2): the
signature token if `targetInsecure`, then the fetch-check token if
`skipFetchCheck`, then `--target-imgref=X` with `X` the target image when it
is not empty and the source otherwise. -/
def specInstallArgs (targetInsecure skipFetchCheck : Bool) (targetImage source : String) :
    List String :=
  (if targetInsecure then ["--target-no-signature-verification"] else []) ++
  (if skipFetchCheck then ["--skip-fetch-check"] else []) ++
  ["--target-imgref=" ++ (if targetImage ≠ "" then targetImage else source)]

/-- A world in which every call succeeds: the variable is unset, `/dev/kvm`
is there, and every child exits with status 0. -/
def okWorld : World :=
  { LookupEnv := fun _ => none
    Stat := fun _ => none
    MkdirAll := fun _ _ => none
    WriteFile := fun _ _ _ => none
    Remove := fun _ => none
    Run := fun _ _ => .finished (.exited 0) }

/-- A world without KVM and without the bypass variable. -/
def noKvmWorld : World :=
  { okWorld with Stat := fun _ => some "stat /dev/kvm: no such file or directory" }

/-- A world without KVM in which `OSBUILD_NO_KVM` is set to the empty string. -/
def bypassWorld : World :=
  { noKvmWorld with LookupEnv := fun key => if key = "OSBUILD_NO_KVM" then some "" else none }

/-- A world in which the child `failing` exits with status `code` and every
other call succeeds. -/
def childExitWorld (failing : String) (code : Fin 256) : World :=
  { okWorld with
    Run := fun name _ => if name = failing then .finished (.exited code)
      else .finished (.exited 0) }

/-- A world in which the child `failing` is terminated by the signal
`signal` and every other call succeeds. -/
def childSignalWorld (failing : String) (signal : String) : World :=
  { okWorld with
    Run := fun name _ => if name = failing then .finished (.signaled signal)
      else .finished (.exited 0) }

/-- A world in which the child `failing` cannot be started and every other
call succeeds. -/
def childSpawnWorld (failing : String) : World :=
  { okWorld with
    Run := fun name _ => if name = failing then .startFailed "fork/exec: no such file or directory"
      else .finished (.exited 0) }

/-- The first three stages of `build-qcow2` succeed in `w`: the preflight
passes, `tmp` is created and `tmp/config.json` is written. -/
def configWritten (w : World) (flags : Flags) (source : String) : Prop :=
  (KVMPreflightCheck w).2 = none ∧ w.MkdirAll "tmp" 0o755 = none ∧
    w.WriteFile "tmp/config.json" (encodeConfig (buildConfig flags source)) 0o644 = none

/-- The first four stages succeed: the config is written and `qemu-img`
exits with status 0. -/
def diskAllocated (w : World) (flags : Flags) (source dest : String) : Prop :=
  configWritten w flags source ∧
    w.Run "qemu-img" ["create", "-f", "qcow2", dest, Nat.repr flags.sizeMiB ++ "M"]
      = .finished (.exited 0)

instance (w : World) (flags : Flags) (source : String) :
    Decidable (configWritten w flags source) := by
  unfold configWritten
  infer_instance

instance (w : World) (flags : Flags) (source dest : String) :
    Decidable (diskAllocated w flags source dest) := by
  unfold diskAllocated
  infer_instance

/-- Whether stage `n` of `build-qcow2 source dest` succeeds when it is asked
of the world `w`: 0 preflight, 1 create `tmp`, 2 write `tmp/config.json`,
3 `qemu-img`, 4 `qcow2.sh`. -/
def stageOk (w : World) (flags : Flags) (source dest : String) : Nat → Bool
  | 0 => (w.LookupEnv "OSBUILD_NO_KVM").isSome || (w.Stat "/dev/kvm").isNone
  | 1 => (w.MkdirAll "tmp" 0o755).isNone
  | 2 => (w.WriteFile "tmp/config.json" (encodeConfig (buildConfig flags source)) 0o644).isNone
  | 3 => decide (w.Run "qemu-img" ["create", "-f", "qcow2", dest, Nat.repr flags.sizeMiB ++ "M"]
      = .finished (.exited 0))
  | 4 => decide (w.Run "/usr/lib/osbuildbootc/qcow2.sh" [dest, "tmp/config.json"]
      = .finished (.exited 0))
  | _ => false

/-- The pipeline stage a recorded call belongs to; the log line, the cleanup
of the disk and the final diagnostic belong to none. -/
def Effect.stage : Effect → Option Nat
  | .lookupEnv _ => some 0
  | .stat _ => some 0
  | .mkdirAll _ _ => some 1
  | .writeFile _ _ _ => some 2
  | .run name _ _ => if name = "qemu-img" then some 3 else some 4
  | .remove _ => none
  | .infof _ => none
  | .stderr _ => none

/-- The recorded call removes a file. -/
def Effect.isRemove : Effect → Bool
  | .remove _ => true
  | _ => false

/-- The path a recorded call of the program itself creates, writes or
removes, if any.  What a child process does to the file system is not a call
of the program. -/
def Effect.modifies : Effect → Option String
  | .mkdirAll path _ => some path
  | .writeFile name _ _ => some name
  | .remove name => some name
  | _ => none

/-! ## Auxiliary lemmas -/

theorem imgref_ne_skip_fetch_check (x : String) :
    "--target-imgref=" ++ x ≠ "--skip-fetch-check" := by
  intro h
  have hd := congrArg String.data h
  simp at hd

theorem imgref_ne_no_signature (x : String) :
    "--target-imgref=" ++ x ≠ "--target-no-signature-verification" := by
  intro h
  have hd := congrArg String.data h
  simp at hd

theorem cmdRun_eq_none_iff (w : World) (name : String) (args : List String) :
    cmdRun w name args = none ↔ w.Run name args = .finished (.exited 0) := by
  unfold cmdRun
  cases h : w.Run name args with
  | startFailed msg => simp
  | finished state =>
    cases state with
    | exited code =>
      simp only [ProcessState.Success, beq_iff_eq, ite_eq_left_iff, reduceCtorEq, imp_false,
        not_not, ChildOutcome.finished.injEq, ProcessState.exited.injEq]
      exact ⟨fun h0 => Fin.ext h0, fun h0 => by rw [h0]; rfl⟩
    | signaled signal => simp [ProcessState.Success]

theorem cmdRun_exited (w : World) (name : String) (args : List String) (k : Fin 256)
    (hk : k ≠ 0) (h : w.Run name args = .finished (.exited k)) :
    cmdRun w name args = some (.exitError (.exited k)) := by
  have hv : k.val ≠ 0 := fun h0 => hk (Fin.ext h0)
  simp [cmdRun, h, ProcessState.Success, hv]

theorem cmdRun_startFailed (w : World) (name : String) (args : List String) (msg : String)
    (h : w.Run name args = .startFailed msg) :
    cmdRun w name args = some (.osError msg) := by
  simp [cmdRun, h]

theorem preflight_trace (w : World) :
    (KVMPreflightCheck w).1 = [.lookupEnv "OSBUILD_NO_KVM"] ∨
      (KVMPreflightCheck w).1 = [.lookupEnv "OSBUILD_NO_KVM", .stat "/dev/kvm"] := by
  unfold KVMPreflightCheck
  cases w.LookupEnv "OSBUILD_NO_KVM" <;> cases w.Stat "/dev/kvm" <;> simp

theorem preflight_ok_iff (w : World) :
    (KVMPreflightCheck w).2 = none
      ↔ (w.LookupEnv "OSBUILD_NO_KVM").isSome = true ∨ w.Stat "/dev/kvm" = none := by
  unfold KVMPreflightCheck
  cases w.LookupEnv "OSBUILD_NO_KVM" <;> cases w.Stat "/dev/kvm" <;> simp

theorem buildConfig_Source (flags : Flags) (source : String) :
    (buildConfig flags source).Source = source := rfl

/-! ### The run of `build-qcow2`, stage by stage -/

theorem RunE_preflight_failed (w : World) (flags : Flags) (source dest : String)
    (err : GoError) (hP : (KVMPreflightCheck w).2 = some err) :
    cmdBuildQcow2.RunE w flags [source, dest] = ((KVMPreflightCheck w).1, .error err) := by
  rcases hK : KVMPreflightCheck w with ⟨t0, r⟩
  rw [hK] at hP
  simp only at hP
  subst hP
  simp [cmdBuildQcow2.RunE, hK]

theorem RunE_mkdir_failed (w : World) (flags : Flags) (source dest msg : String)
    (hP : (KVMPreflightCheck w).2 = none) (hM : w.MkdirAll "tmp" 0o755 = some msg) :
    cmdBuildQcow2.RunE w flags [source, dest]
      = ((KVMPreflightCheck w).1 ++ [.mkdirAll "tmp" 0o755], .error (.osError msg)) := by
  rcases hK : KVMPreflightCheck w with ⟨t0, r⟩
  rw [hK] at hP
  simp only at hP
  subst hP
  simp [cmdBuildQcow2.RunE, hK, hM]

theorem RunE_write_failed (w : World) (flags : Flags) (source dest msg : String)
    (hP : (KVMPreflightCheck w).2 = none) (hM : w.MkdirAll "tmp" 0o755 = none)
    (hW : w.WriteFile "tmp/config.json" (encodeConfig (buildConfig flags source)) 0o644
      = some msg) :
    cmdBuildQcow2.RunE w flags [source, dest]
      = ((KVMPreflightCheck w).1 ++
          [.mkdirAll "tmp" 0o755,
           .writeFile "tmp/config.json" (encodeConfig (buildConfig flags source)) 0o644],
         .error (.osError msg)) := by
  rcases hK : KVMPreflightCheck w with ⟨t0, r⟩
  rw [hK] at hP
  simp only at hP
  subst hP
  simp [cmdBuildQcow2.RunE, hK, hM, hW, jsonMarshal]

theorem RunE_qemu_img_failed (w : World) (flags : Flags) (source dest : String)
    (err : GoError) (hC : configWritten w flags source)
    (hQ : RunCmdSync w "qemu-img" (qemuImgArgs dest flags.sizeMiB) = some err) :
    cmdBuildQcow2.RunE w flags [source, dest]
      = ((KVMPreflightCheck w).1 ++
          [.mkdirAll "tmp" 0o755,
           .writeFile "tmp/config.json" (encodeConfig (buildConfig flags source)) 0o644,
           .run "qemu-img" (qemuImgArgs dest flags.sizeMiB) false],
         .error err) := by
  obtain ⟨hP, hM, hW⟩ := hC
  rcases hK : KVMPreflightCheck w with ⟨t0, r⟩
  rw [hK] at hP
  simp only at hP
  subst hP
  simp [cmdBuildQcow2.RunE, hK, hM, hW, hQ, jsonMarshal]

theorem RunE_helper_failed (w : World) (flags : Flags) (source dest : String)
    (err : GoError) (hC : configWritten w flags source)
    (hQ : RunCmdSync w "qemu-img" (qemuImgArgs dest flags.sizeMiB) = none)
    (hH : cmdRun w "/usr/lib/osbuildbootc/qcow2.sh" [dest, "tmp/config.json"] = some err) :
    cmdBuildQcow2.RunE w flags [source, dest]
      = ((KVMPreflightCheck w).1 ++
          [.mkdirAll "tmp" 0o755,
           .writeFile "tmp/config.json" (encodeConfig (buildConfig flags source)) 0o644,
           .run "qemu-img" (qemuImgArgs dest flags.sizeMiB) false,
           .infof ("Generating image; source=" ++ source ++ " target="
              ++ targetImageOf flags source),
           .run "/usr/lib/osbuildbootc/qcow2.sh" [dest, "tmp/config.json"] false,
           .remove dest],
         .error err) := by
  obtain ⟨hP, hM, hW⟩ := hC
  rcases hK : KVMPreflightCheck w with ⟨t0, r⟩
  rw [hK] at hP
  simp only at hP
  subst hP
  simp [cmdBuildQcow2.RunE, hK, hM, hW, hQ, hH, jsonMarshal, buildConfig_Source]

theorem RunE_succeeded (w : World) (flags : Flags) (source dest : String)
    (hC : configWritten w flags source)
    (hQ : RunCmdSync w "qemu-img" (qemuImgArgs dest flags.sizeMiB) = none)
    (hH : cmdRun w "/usr/lib/osbuildbootc/qcow2.sh" [dest, "tmp/config.json"] = none) :
    cmdBuildQcow2.RunE w flags [source, dest]
      = ((KVMPreflightCheck w).1 ++
          [.mkdirAll "tmp" 0o755,
           .writeFile "tmp/config.json" (encodeConfig (buildConfig flags source)) 0o644,
           .run "qemu-img" (qemuImgArgs dest flags.sizeMiB) false,
           .infof ("Generating image; source=" ++ source ++ " target="
              ++ targetImageOf flags source),
           .run "/usr/lib/osbuildbootc/qcow2.sh" [dest, "tmp/config.json"] false],
         .nil) := by
  obtain ⟨hP, hM, hW⟩ := hC
  rcases hK : KVMPreflightCheck w with ⟨t0, r⟩
  rw [hK] at hP
  simp only at hP
  subst hP
  simp [cmdBuildQcow2.RunE, hK, hM, hW, hQ, hH, jsonMarshal, buildConfig_Source]

theorem Execute_buildQcow2_pair (w : World) (flags : Flags) (source dest : String) :
    Execute w (.buildQcow2 flags [source, dest]) = cmdBuildQcow2.RunE w flags [source, dest] := by
  simp [Execute, MatchAll, ExactArgs, OnlyValidArgs]

/-- Case analysis on a run of `build-qcow2 source dest`: it ends at the first
stage that fails, or all five stages succeed. -/
theorem RunE_cases (w : World) (flags : Flags) (source dest : String)
    (P : List Effect × Result → Prop)
    (h0 : ∀ err, (KVMPreflightCheck w).2 = some err →
      P ((KVMPreflightCheck w).1, .error err))
    (h1 : ∀ msg, (KVMPreflightCheck w).2 = none → w.MkdirAll "tmp" 0o755 = some msg →
      P ((KVMPreflightCheck w).1 ++ [.mkdirAll "tmp" 0o755], .error (.osError msg)))
    (h2 : ∀ msg, (KVMPreflightCheck w).2 = none → w.MkdirAll "tmp" 0o755 = none →
      w.WriteFile "tmp/config.json" (encodeConfig (buildConfig flags source)) 0o644 = some msg →
      P ((KVMPreflightCheck w).1 ++
          [.mkdirAll "tmp" 0o755,
           .writeFile "tmp/config.json" (encodeConfig (buildConfig flags source)) 0o644],
         .error (.osError msg)))
    (h3 : ∀ err, configWritten w flags source →
      RunCmdSync w "qemu-img" (qemuImgArgs dest flags.sizeMiB) = some err →
      P ((KVMPreflightCheck w).1 ++
          [.mkdirAll "tmp" 0o755,
           .writeFile "tmp/config.json" (encodeConfig (buildConfig flags source)) 0o644,
           .run "qemu-img" (qemuImgArgs dest flags.sizeMiB) false],
         .error err))
    (h4 : ∀ err, configWritten w flags source →
      RunCmdSync w "qemu-img" (qemuImgArgs dest flags.sizeMiB) = none →
      cmdRun w "/usr/lib/osbuildbootc/qcow2.sh" [dest, "tmp/config.json"] = some err →
      P ((KVMPreflightCheck w).1 ++
          [.mkdirAll "tmp" 0o755,
           .writeFile "tmp/config.json" (encodeConfig (buildConfig flags source)) 0o644,
           .run "qemu-img" (qemuImgArgs dest flags.sizeMiB) false,
           .infof ("Generating image; source=" ++ source ++ " target="
              ++ targetImageOf flags source),
           .run "/usr/lib/osbuildbootc/qcow2.sh" [dest, "tmp/config.json"] false,
           .remove dest],
         .error err))
    (h5 : configWritten w flags source →
      RunCmdSync w "qemu-img" (qemuImgArgs dest flags.sizeMiB) = none →
      cmdRun w "/usr/lib/osbuildbootc/qcow2.sh" [dest, "tmp/config.json"] = none →
      P ((KVMPreflightCheck w).1 ++
          [.mkdirAll "tmp" 0o755,
           .writeFile "tmp/config.json" (encodeConfig (buildConfig flags source)) 0o644,
           .run "qemu-img" (qemuImgArgs dest flags.sizeMiB) false,
           .infof ("Generating image; source=" ++ source ++ " target="
              ++ targetImageOf flags source),
           .run "/usr/lib/osbuildbootc/qcow2.sh" [dest, "tmp/config.json"] false],
         .nil)) :
    P (cmdBuildQcow2.RunE w flags [source, dest]) := by
  cases hP : (KVMPreflightCheck w).2 with
  | some err => rw [RunE_preflight_failed w flags source dest err hP]; exact h0 err hP
  | none =>
    cases hM : w.MkdirAll "tmp" 0o755 with
    | some msg => rw [RunE_mkdir_failed w flags source dest msg hP hM]; exact h1 msg hP hM
    | none =>
      cases hW : w.WriteFile "tmp/config.json" (encodeConfig (buildConfig flags source)) 0o644 with
      | some msg =>
        rw [RunE_write_failed w flags source dest msg hP hM hW]; exact h2 msg hP hM hW
      | none =>
        have hC : configWritten w flags source := ⟨hP, hM, hW⟩
        cases hQ : RunCmdSync w "qemu-img" (qemuImgArgs dest flags.sizeMiB) with
        | some err => rw [RunE_qemu_img_failed w flags source dest err hC hQ]; exact h3 err hC hQ
        | none =>
          cases hH : cmdRun w "/usr/lib/osbuildbootc/qcow2.sh" [dest, "tmp/config.json"] with
          | some err =>
            rw [RunE_helper_failed w flags source dest err hC hQ hH]; exact h4 err hC hQ hH
          | none => rw [RunE_succeeded w flags source dest hC hQ hH]; exact h5 hC hQ hH

theorem preflight_no_writeFile (w : World) (name data : String) (perm : Nat) :
    Effect.writeFile name data perm ∉ (KVMPreflightCheck w).1 := by
  rcases preflight_trace w with h | h <;> simp [h]

theorem preflight_no_run (w : World) (name : String) (args : List String) (stdin : Bool) :
    Effect.run name args stdin ∉ (KVMPreflightCheck w).1 := by
  rcases preflight_trace w with h | h <;> simp [h]

theorem preflight_no_remove (w : World) (name : String) :
    Effect.remove name ∉ (KVMPreflightCheck w).1 := by
  rcases preflight_trace w with h | h <;> simp [h]

theorem preflight_no_modifies (w : World) :
    ∀ e ∈ (KVMPreflightCheck w).1, e.modifies = none := by
  rcases preflight_trace w with h | h <;> simp [h, Effect.modifies]

theorem buildConfig_eq_spec (flags : Flags) (source : String) :
    buildConfig flags source =
      { SourceTransport := flags.sourceTransport
        Source := source
        InstallArgs :=
          specInstallArgs flags.targetInsecure flags.skipFetchCheck flags.targetImage source
        Disk := "/dev/disk/by-id/virtio-target" } := by
  obtain ⟨st, ti, insecure, skip, sz⟩ := flags
  cases insecure <;> cases skip <;> simp [buildConfig, specInstallArgs, targetImageOf]

theorem stageOk_zero (w : World) (flags : Flags) (source dest : String) :
    stageOk w flags source dest 0 = true ↔ (KVMPreflightCheck w).2 = none := by
  rw [preflight_ok_iff]
  simp [stageOk]

theorem stageOk_one (w : World) (flags : Flags) (source dest : String) :
    stageOk w flags source dest 1 = true ↔ w.MkdirAll "tmp" 0o755 = none := by
  simp [stageOk]

theorem stageOk_two (w : World) (flags : Flags) (source dest : String) :
    stageOk w flags source dest 2 = true ↔
      w.WriteFile "tmp/config.json" (encodeConfig (buildConfig flags source)) 0o644 = none := by
  simp [stageOk]

theorem stageOk_three (w : World) (flags : Flags) (source dest : String) :
    stageOk w flags source dest 3 = true ↔
      RunCmdSync w "qemu-img" (qemuImgArgs dest flags.sizeMiB) = none := by
  rw [RunCmdSync, cmdRun_eq_none_iff]
  simp [stageOk, qemuImgArgs, sprintfSize]

theorem stageOk_four (w : World) (flags : Flags) (source dest : String) :
    stageOk w flags source dest 4 = true ↔
      cmdRun w "/usr/lib/osbuildbootc/qcow2.sh" [dest, "tmp/config.json"] = none := by
  rw [cmdRun_eq_none_iff]
  simp [stageOk]

theorem range_five : List.range 5 = [0, 1, 2, 3, 4] := rfl

theorem not_true_of_some {α : Type} {o : Option α} {a : α} {b : Bool}
    (hb : b = true ↔ o = none) (h : o = some a) : b = false := by
  rw [← Bool.not_eq_true, hb, h]; simp

/-- Summary of the stages a run of `build-qcow2` enters, by case analysis on
the first stage that fails. -/
theorem stages_summary (w : World) (flags : Flags) (source dest : String) :
    ((cmdBuildQcow2.RunE w flags [source, dest]).1.filterMap Effect.stage).dedup
        = List.range (min 5
            (((List.range 5).takeWhile (stageOk w flags source dest)).length + 1))
      ∧ (∀ n, n + 1 ∈ (cmdBuildQcow2.RunE w flags [source, dest]).1.filterMap Effect.stage →
          stageOk w flags source dest n = true)
      ∧ ((cmdBuildQcow2.RunE w flags [source, dest]).1.filterMap Effect.stage).Sorted (· ≤ ·)
      ∧ ((cmdBuildQcow2.RunE w flags [source, dest]).2 = .nil ↔
          ∀ n, n < 5 → stageOk w flags source dest n = true) := by
  apply RunE_cases w flags source dest
    (fun r => (r.1.filterMap Effect.stage).dedup
        = List.range (min 5
            (((List.range 5).takeWhile (stageOk w flags source dest)).length + 1))
      ∧ (∀ n, n + 1 ∈ r.1.filterMap Effect.stage → stageOk w flags source dest n = true)
      ∧ (r.1.filterMap Effect.stage).Sorted (· ≤ ·)
      ∧ (r.2 = .nil ↔ ∀ n, n < 5 → stageOk w flags source dest n = true))
  · intro err hP
    have s0 := not_true_of_some (stageOk_zero w flags source dest) hP
    rcases preflight_trace w with h | h <;>
      refine ⟨?_, ?_, ?_, ?_⟩ <;>
      simp [h, range_five, List.takeWhile, s0, Effect.stage]
    all_goals first | decide | exact ⟨0, by norm_num, s0⟩
  · intro msg hP hM
    have s0 := (stageOk_zero w flags source dest).2 hP
    have s1 := not_true_of_some (stageOk_one w flags source dest) hM
    rcases preflight_trace w with h | h <;>
      refine ⟨?_, ?_, ?_, ?_⟩ <;>
      simp [h, range_five, List.takeWhile, s0, s1, Effect.stage]
    all_goals first | decide | exact ⟨1, by norm_num, s1⟩
  · intro msg hP hM hW
    have s0 := (stageOk_zero w flags source dest).2 hP
    have s1 := (stageOk_one w flags source dest).2 hM
    have s2 := not_true_of_some (stageOk_two w flags source dest) hW
    rcases preflight_trace w with h | h <;>
      refine ⟨?_, ?_, ?_, ?_⟩ <;>
      simp [h, range_five, List.takeWhile, s0, s1, s2, Effect.stage]
    all_goals first | decide | exact ⟨2, by norm_num, s2⟩
  · intro err hC hQ
    have s0 := (stageOk_zero w flags source dest).2 hC.1
    have s1 := (stageOk_one w flags source dest).2 hC.2.1
    have s2 := (stageOk_two w flags source dest).2 hC.2.2
    have s3 := not_true_of_some (stageOk_three w flags source dest) hQ
    rcases preflight_trace w with h | h <;>
      refine ⟨?_, ?_, ?_, ?_⟩ <;>
      simp [h, range_five, List.takeWhile, s0, s1, s2, s3, Effect.stage]
    all_goals first | decide | exact ⟨3, by norm_num, s3⟩
  · intro err hC hQ hH
    have s0 := (stageOk_zero w flags source dest).2 hC.1
    have s1 := (stageOk_one w flags source dest).2 hC.2.1
    have s2 := (stageOk_two w flags source dest).2 hC.2.2
    have s3 := (stageOk_three w flags source dest).2 hQ
    have s4 := not_true_of_some (stageOk_four w flags source dest) hH
    rcases preflight_trace w with h | h <;>
      refine ⟨?_, ?_, ?_, ?_⟩ <;>
      simp [h, range_five, List.takeWhile, s0, s1, s2, s3, s4, Effect.stage]
    all_goals first | decide | exact ⟨4, by norm_num, s4⟩
  · intro hC hQ hH
    have s0 := (stageOk_zero w flags source dest).2 hC.1
    have s1 := (stageOk_one w flags source dest).2 hC.2.1
    have s2 := (stageOk_two w flags source dest).2 hC.2.2
    have s3 := (stageOk_three w flags source dest).2 hQ
    have s4 := (stageOk_four w flags source dest).2 hH
    rcases preflight_trace w with h | h <;>
      refine ⟨?_, ?_, ?_, ?_⟩ <;>
      simp [h, range_five, List.takeWhile, s0, s1, s2, s3, s4, Effect.stage]
    all_goals first | decide | (intro n hn; interval_cases n <;> assumption)

theorem exitStatus_exited (k : Fin 256) :
    exitStatus (ProcessState.exited k).ExitCode = k.val := by
  have hk := k.isLt
  simp only [exitStatus, ProcessState.ExitCode]
  omega

theorem main_of_exitError (w : World) (inv : Invocation) (t : List Effect)
    (state : ProcessState) (h : Execute w inv = (t, .error (.exitError state))) :
    main w inv = (t, exitStatus state.ExitCode) := by
  simp [main, h, GoError.asExitError]

theorem main_of_osError (w : World) (inv : Invocation) (t : List Effect) (msg : String)
    (h : Execute w inv = (t, .error (.osError msg))) :
    main w inv = (t ++ [.stderr ("error: " ++ msg ++ "\n")], 1) := by
  simp [main, h, GoError.asExitError, GoError.Error, exitStatus]

theorem main_of_wrapError (w : World) (inv : Invocation) (t : List Effect) (msg : String)
    (err : GoError) (h : Execute w inv = (t, .error (.wrapError msg err))) :
    main w inv = (t ++ [.stderr ("error: " ++ msg ++ "\n")], 1) := by
  simp [main, h, GoError.asExitError, GoError.Error, exitStatus]

theorem main_of_other (w : World) (inv : Invocation) (t : List Effect) (err : GoError)
    (h : Execute w inv = (t, .error err)) (hne : err.asExitError = none) :
    main w inv = (t ++ [.stderr ("error: " ++ err.Error ++ "\n")], 1) := by
  simp [main, h, hne, exitStatus]

theorem main_of_nil (w : World) (inv : Invocation) (t : List Effect)
    (h : Execute w inv = (t, .nil)) :
    main w inv = (t, 0) := by
  simp [main, h]

theorem Execute_vmshell (w : World) :
    Execute w (.vmshell []) = cmdVMShell.RunE w [] := by
  simp [Execute, MatchAll, ExactArgs, OnlyValidArgs]

/-! ## The install arguments -/

/-- C1: for every combination of options the `InstallArgs` of the build
config is exactly the list the spec describes; its last element is
`--target-imgref=X` with `X` the target image when non-empty and the source
otherwise; and `-I -S -t quay.io/b:2` with source `docker://a:1` gives the
three tokens of the scenario. -/
theorem installArgs_exact (flags : Flags) (source : String) :
    (buildConfig flags source).InstallArgs
        = specInstallArgs flags.targetInsecure flags.skipFetchCheck flags.targetImage source
      ∧ (buildConfig flags source).InstallArgs.getLast?
        = some ("--target-imgref=" ++
            (if flags.targetImage ≠ "" then flags.targetImage else source))
      ∧ (buildConfig
            { init with targetInsecure := true, skipFetchCheck := true,
                        targetImage := "quay.io/b:2" } "docker://a:1").InstallArgs
        = ["--target-no-signature-verification", "--skip-fetch-check",
            "--target-imgref=quay.io/b:2"] := by
  obtain ⟨st, ti, insecure, skip, sz⟩ := flags
  refine ⟨?_, ?_, by decide⟩
  · cases insecure <;> cases skip <;>
      simp [buildConfig, specInstallArgs, targetImageOf]
  · cases insecure <;> cases skip <;>
      simp [buildConfig, targetImageOf]

/-- C2: `InstallArgs` contains `--target-no-signature-verification` exactly
when `targetInsecure` is set and `--skip-fetch-check` exactly when
`skipFetchCheck` is set, each at most once; the trailing
`--target-imgref=...` token is never equal to either of them. -/
theorem installArgs_flag_tokens (flags : Flags) (source : String) :
    ("--target-no-signature-verification" ∈ (buildConfig flags source).InstallArgs
        ↔ flags.targetInsecure = true)
      ∧ ("--skip-fetch-check" ∈ (buildConfig flags source).InstallArgs
        ↔ flags.skipFetchCheck = true)
      ∧ (buildConfig flags source).InstallArgs.count "--target-no-signature-verification" ≤ 1
      ∧ (buildConfig flags source).InstallArgs.count "--skip-fetch-check" ≤ 1
      ∧ (buildConfig flags source).InstallArgs.getLast?
          = some ("--target-imgref=" ++ targetImageOf flags source)
      ∧ (∀ ref : String, "--target-imgref=" ++ ref ≠ "--target-no-signature-verification")
      ∧ (∀ ref : String, "--target-imgref=" ++ ref ≠ "--skip-fetch-check") := by
  obtain ⟨st, ti, insecure, skip, sz⟩ := flags
  have h1 := imgref_ne_no_signature (targetImageOf ⟨st, ti, insecure, skip, sz⟩ source)
  have h2 := imgref_ne_skip_fetch_check (targetImageOf ⟨st, ti, insecure, skip, sz⟩ source)
  have h1s := Ne.symm h1
  have h2s := Ne.symm h2
  refine ⟨?_, ?_, ?_, ?_, ?_, imgref_ne_no_signature, imgref_ne_skip_fetch_check⟩ <;>
    cases insecure <;> cases skip <;>
      simp [buildConfig, List.count_cons, h1, h2, h1s, h2s]

/-! ## The config document -/

/-- C3: in every run of `build-qcow2 source dest`, whatever the world
answers, the only file written is `tmp/config.json` (mode 0644) and its
content is the serialization of the object with `SourceTransport` the
transport flag, `Source` the positional source unchanged, `InstallArgs` the
constructed list and `Disk` the literal `/dev/disk/by-id/virtio-target`; the
file is written whenever the preflight and the creation of `tmp` succeed; two
runs with the same options, in any two worlds and for any two destinations,
write identical content; the default transport is `docker://` and the
scenario of the spec gives the expected document. -/
theorem config_document (w : World) (flags : Flags) (source dest : String) :
    (∀ name data perm,
        Effect.writeFile name data perm ∈ (cmdBuildQcow2.RunE w flags [source, dest]).1 →
        name = "tmp/config.json" ∧ perm = 0o644 ∧
        jsonMarshal
          { SourceTransport := flags.sourceTransport
            Source := source
            InstallArgs :=
              specInstallArgs flags.targetInsecure flags.skipFetchCheck flags.targetImage source
            Disk := "/dev/disk/by-id/virtio-target" } = .ok data)
      ∧ ((KVMPreflightCheck w).2 = none → w.MkdirAll "tmp" 0o755 = none →
          ∃ data, Effect.writeFile "tmp/config.json" data 0o644
            ∈ (cmdBuildQcow2.RunE w flags [source, dest]).1)
      ∧ (∀ w2 dest2 name data perm name2 data2 perm2,
          Effect.writeFile name data perm ∈ (cmdBuildQcow2.RunE w flags [source, dest]).1 →
          Effect.writeFile name2 data2 perm2
            ∈ (cmdBuildQcow2.RunE w2 flags [source, dest2]).1 →
          data = data2)
      ∧ init.sourceTransport = "docker://"
      ∧ jsonMarshal (buildConfig init "docker://example/img:tag")
          = .ok "\x7b\"SourceTransport\":\"docker://\",\"Source\":\"docker://example/img:tag\",\"InstallArgs\":[\"--target-imgref=docker://example/img:tag\"],\"Disk\":\"/dev/disk/by-id/virtio-target\"\x7d" := by
  have key : ∀ (w1 : World) (d : String) (name data : String) (perm : Nat),
      Effect.writeFile name data perm ∈ (cmdBuildQcow2.RunE w1 flags [source, d]).1 →
      name = "tmp/config.json" ∧ perm = 0o644 ∧
        data = encodeConfig (buildConfig flags source) := by
    intro w1 d name data perm
    have hp := preflight_no_writeFile w1 name data perm
    apply RunE_cases w1 flags source d
      (fun r => Effect.writeFile name data perm ∈ r.1 →
        name = "tmp/config.json" ∧ perm = 0o644 ∧
          data = encodeConfig (buildConfig flags source))
    all_goals intros
    all_goals simp_all
  refine ⟨?_, ?_, ?_, rfl, rfl⟩
  · intro name data perm h
    obtain ⟨h1, h2, h3⟩ := key w dest name data perm h
    refine ⟨h1, h2, ?_⟩
    rw [← buildConfig_eq_spec, h3]
    rfl
  · intro hP hM
    refine ⟨encodeConfig (buildConfig flags source), ?_⟩
    clear key
    apply RunE_cases w flags source dest
      (fun r => Effect.writeFile "tmp/config.json"
        (encodeConfig (buildConfig flags source)) 0o644 ∈ r.1)
    · intro err hE
      rw [hP] at hE
      cases hE
    · intro msg _ hE
      rw [hM] at hE
      cases hE
    all_goals intros
    all_goals simp
  · intro w2 dest2 name data perm name2 data2 perm2 h h2
    rw [(key w dest name data perm h).2.2, (key w2 dest2 name2 data2 perm2 h2).2.2]

/-- Witness of C3: in the world where every call succeeds the happy-path
scenario writes `tmp/config.json`. -/
theorem config_document_witness :
    ∃ data, Effect.writeFile "tmp/config.json" data 0o644
      ∈ (cmdBuildQcow2.RunE okWorld init ["docker://example/img:tag", "out.qcow2"]).1 :=
  (config_document okWorld init "docker://example/img:tag" "out.qcow2").2.1 rfl rfl

/-! ## The preflight check -/

/-- C6: `KVMPreflightCheck` succeeds exactly when `OSBUILD_NO_KVM` is set (to
any value, the empty string included) or the stat of `/dev/kvm` succeeds; when
the variable is set it succeeds without a stat; when the variable is unset and
the stat fails it fails with an error that wraps the stat error and whose
message names `OSBUILD_NO_KVM` as the bypass. -/
theorem KVMPreflightCheck_iff (w : World) :
    ((KVMPreflightCheck w).2 = none
        ↔ (w.LookupEnv "OSBUILD_NO_KVM").isSome = true ∨ w.Stat "/dev/kvm" = none)
      ∧ (∀ v, w.LookupEnv "OSBUILD_NO_KVM" = some v →
          KVMPreflightCheck w = ([.lookupEnv "OSBUILD_NO_KVM"], none)
            ∧ ∀ name, Effect.stat name ∉ (KVMPreflightCheck w).1)
      ∧ (∀ msg, w.LookupEnv "OSBUILD_NO_KVM" = none → w.Stat "/dev/kvm" = some msg →
          ∃ err, (KVMPreflightCheck w).2 = some err
            ∧ err.Unwrap = some (.osError msg)
            ∧ err.Error = "failed to access /dev/kvm; you can set OSBUILD_NO_KVM to bypass this at the cost of performance: " ++ msg) := by
  refine ⟨preflight_ok_iff w, ?_, ?_⟩
  · intro v hv
    simp [KVMPreflightCheck, hv]
  · intro msg hE hS
    simp [KVMPreflightCheck, hE, hS, GoError.Unwrap, GoError.Error]

/-- Witness of C6: with `OSBUILD_NO_KVM` set to the empty string and no
`/dev/kvm` the check succeeds after the environment lookup alone. -/
theorem KVMPreflightCheck_iff_witness :
    bypassWorld.LookupEnv "OSBUILD_NO_KVM" = some "" ∧
      bypassWorld.Stat "/dev/kvm" ≠ none ∧
      KVMPreflightCheck bypassWorld = ([.lookupEnv "OSBUILD_NO_KVM"], none) :=
  ⟨rfl, by simp [bypassWorld, noKvmWorld],
    ((KVMPreflightCheck_iff bypassWorld).2.1 "" rfl).1⟩

/-! ## The source field -/

/-- Counterexample to C9 as stated: `build-qcow2 "" out.qcow2` passes the
argument validation (two positional arguments), and the run writes a config
whose `Source` is the empty string. -/
theorem source_may_be_empty :
    MatchAll (ExactArgs 2) OnlyValidArgs ["", "out.qcow2"] = none
      ∧ (buildConfig init "").Source = ""
      ∧ Effect.writeFile "tmp/config.json"
          "\x7b\"SourceTransport\":\"docker://\",\"Source\":\"\",\"InstallArgs\":[\"--target-imgref=\"],\"Disk\":\"/dev/disk/by-id/virtio-target\"\x7d"
          0o644 ∈ (Execute okWorld (.buildQcow2 init ["", "out.qcow2"])).1 := by
  refine ⟨by decide, rfl, ?_⟩
  have h : (Execute okWorld (.buildQcow2 init ["", "out.qcow2"])).1 =
      [.lookupEnv "OSBUILD_NO_KVM", .stat "/dev/kvm", .mkdirAll "tmp" 0o755,
       .writeFile "tmp/config.json"
          "\x7b\"SourceTransport\":\"docker://\",\"Source\":\"\",\"InstallArgs\":[\"--target-imgref=\"],\"Disk\":\"/dev/disk/by-id/virtio-target\"\x7d"
          0o644,
       .run "qemu-img" ["create", "-f", "qcow2", "out.qcow2", "10240M"] false,
       .infof "Generating image; source= target=",
       .run "/usr/lib/osbuildbootc/qcow2.sh" ["out.qcow2", "tmp/config.json"] false] := rfl
  rw [h]
  simp

/-- C9 (amended): for every `build-qcow2` invocation that passes the argument
validation there are exactly two positional arguments, the `Source` of the
build config is the first of them, unchanged, and so it is non-empty exactly
when that argument is non-empty; any config document the run writes is the
encoding of that config. -/
theorem source_is_first_argument (w : World) (flags : Flags) (args : List String)
    (hargs : MatchAll (ExactArgs 2) OnlyValidArgs args = none) :
    ∃ source dest, args = [source, dest]
      ∧ (buildConfig flags source).Source = source
      ∧ ((buildConfig flags source).Source ≠ "" ↔ source ≠ "")
      ∧ ∀ name data perm,
          Effect.writeFile name data perm ∈ (Execute w (.buildQcow2 flags args)).1 →
          jsonMarshal (buildConfig flags source) = .ok data := by
  have hlen : args.length = 2 := by
    by_contra hne
    simp [MatchAll, ExactArgs, hne] at hargs
  match args, hlen with
  | [source, dest], _ =>
    refine ⟨source, dest, rfl, rfl, Iff.rfl, ?_⟩
    intro name data perm
    rw [Execute_buildQcow2_pair]
    have hp := preflight_no_writeFile w name data perm
    apply RunE_cases w flags source dest
      (fun r => Effect.writeFile name data perm ∈ r.1 →
        jsonMarshal (buildConfig flags source) = .ok data)
    all_goals intros
    all_goals simp_all [jsonMarshal]

/-- Witness of the amended C9: `build-qcow2 docker://a:1 out.qcow2` is valid
and its config has `Source = docker://a:1`. -/
theorem source_is_first_argument_witness :
    MatchAll (ExactArgs 2) OnlyValidArgs ["docker://a:1", "out.qcow2"] = none
      ∧ ∃ source dest, ["docker://a:1", "out.qcow2"] = [source, dest]
        ∧ (buildConfig init source).Source = source
        ∧ ((buildConfig init source).Source ≠ "" ↔ source ≠ "")
        ∧ ∀ name data perm,
            Effect.writeFile name data perm
              ∈ (Execute okWorld (.buildQcow2 init ["docker://a:1", "out.qcow2"])).1 →
            jsonMarshal (buildConfig init source) = .ok data :=
  ⟨by decide, source_is_first_argument okWorld init ["docker://a:1", "out.qcow2"] (by decide)⟩

/-! ## Cleanup of the disk -/

/-- C5: in a run of `build-qcow2 source dest` in which the disk was
preallocated, if the helper `qcow2.sh` fails (it cannot be started, or it
does not exit with status 0) then the run performs exactly one remove, of
`dest`, as the call right after the helper and the last of the run, and the
error returned is the error of the helper; the answer of the world to the
remove changes nothing of the run.  If the helper succeeds, the run performs
no remove and returns nil. -/
theorem helper_failure_cleanup (w : World) (flags : Flags) (source dest : String)
    (hD : diskAllocated w flags source dest) :
    (w.Run "/usr/lib/osbuildbootc/qcow2.sh" [dest, "tmp/config.json"]
          ≠ .finished (.exited 0) →
        ∃ err pre,
          cmdRun w "/usr/lib/osbuildbootc/qcow2.sh" [dest, "tmp/config.json"] = some err
          ∧ (cmdBuildQcow2.RunE w flags [source, dest]).2 = .error err
          ∧ (cmdBuildQcow2.RunE w flags [source, dest]).1
              = pre ++ [.run "/usr/lib/osbuildbootc/qcow2.sh" [dest, "tmp/config.json"] false,
                        .remove dest]
          ∧ (∀ name, Effect.remove name ∉ pre)
          ∧ (cmdBuildQcow2.RunE w flags [source, dest]).1.filter Effect.isRemove
              = [.remove dest])
      ∧ (∀ answer,
          cmdBuildQcow2.RunE { w with Remove := answer } flags [source, dest]
            = cmdBuildQcow2.RunE w flags [source, dest])
      ∧ (w.Run "/usr/lib/osbuildbootc/qcow2.sh" [dest, "tmp/config.json"]
          = .finished (.exited 0) →
        (cmdBuildQcow2.RunE w flags [source, dest]).2 = .nil
          ∧ ∀ name, Effect.remove name ∉ (cmdBuildQcow2.RunE w flags [source, dest]).1) := by
  obtain ⟨hC, hQ0⟩ := hD
  have hQ : RunCmdSync w "qemu-img" (qemuImgArgs dest flags.sizeMiB) = none :=
    (cmdRun_eq_none_iff w _ _).2 hQ0
  have hnr := preflight_no_remove w
  refine ⟨?_, fun _ => rfl, ?_⟩
  · intro hne
    cases hH : cmdRun w "/usr/lib/osbuildbootc/qcow2.sh" [dest, "tmp/config.json"] with
    | none => exact absurd ((cmdRun_eq_none_iff w _ _).1 hH) hne
    | some err =>
      refine ⟨err, (KVMPreflightCheck w).1 ++
          [.mkdirAll "tmp" 0o755,
           .writeFile "tmp/config.json" (encodeConfig (buildConfig flags source)) 0o644,
           .run "qemu-img" (qemuImgArgs dest flags.sizeMiB) false,
           .infof ("Generating image; source=" ++ source ++ " target="
              ++ targetImageOf flags source)], rfl, ?_, ?_, ?_, ?_⟩
      · rw [RunE_helper_failed w flags source dest err hC hQ hH]
      · rw [RunE_helper_failed w flags source dest err hC hQ hH]
        simp
      · intro name
        simp [hnr]
      · rw [RunE_helper_failed w flags source dest err hC hQ hH]
        rcases preflight_trace w with h | h <;> simp [h, Effect.isRemove]
  · intro hok
    have hH := (cmdRun_eq_none_iff w _ _).2 hok
    rw [RunE_succeeded w flags source dest hC hQ hH]
    exact ⟨rfl, fun name => by simp [hnr]⟩

/-- Witness of C5: the helper exits with status 7 after the disk was
preallocated. -/
theorem helper_failure_cleanup_witness :
    diskAllocated (childExitWorld "/usr/lib/osbuildbootc/qcow2.sh" 7) init
        "docker://a:1" "out.qcow2"
      ∧ (cmdBuildQcow2.RunE (childExitWorld "/usr/lib/osbuildbootc/qcow2.sh" 7) init
          ["docker://a:1", "out.qcow2"]).1.filter Effect.isRemove = [.remove "out.qcow2"] := by
  have hD : diskAllocated (childExitWorld "/usr/lib/osbuildbootc/qcow2.sh" 7) init
      "docker://a:1" "out.qcow2" := ⟨⟨rfl, rfl, rfl⟩, by decide⟩
  obtain ⟨_, _, _, _, _, _, h⟩ :=
    (helper_failure_cleanup (childExitWorld "/usr/lib/osbuildbootc/qcow2.sh" 7) init
      "docker://a:1" "out.qcow2" hD).1 (by decide)
  exact ⟨hD, h⟩

/-! ## Ordering of the stages -/

/-- C7: in every run of `build-qcow2 source dest` the stages entered are, in
order and without gaps, a prefix of preflight, create `tmp`, write
`tmp/config.json`, `qemu-img`, `qcow2.sh`, cut right after the first stage
that fails: a call of stage `n + 1` occurs only if stage `n` succeeded, and
the run returns nil exactly when all five stages succeed.  In particular,
when `OSBUILD_NO_KVM` is unset and the stat of `/dev/kvm` fails, the run
consists of the environment lookup and the stat alone and returns an error:
no directory is created, no file written, no child started. -/
theorem stages_in_sequence (w : World) (flags : Flags) (source dest : String) :
    ((cmdBuildQcow2.RunE w flags [source, dest]).1.filterMap Effect.stage).dedup
        = List.range (min 5
            (((List.range 5).takeWhile (stageOk w flags source dest)).length + 1))
      ∧ ((cmdBuildQcow2.RunE w flags [source, dest]).1.filterMap Effect.stage).Sorted (· ≤ ·)
      ∧ (∀ e ∈ (cmdBuildQcow2.RunE w flags [source, dest]).1, ∀ n,
          e.stage = some (n + 1) → stageOk w flags source dest n = true)
      ∧ ((cmdBuildQcow2.RunE w flags [source, dest]).2 = .nil ↔
          ∀ n, n < 5 → stageOk w flags source dest n = true)
      ∧ (w.LookupEnv "OSBUILD_NO_KVM" = none → w.Stat "/dev/kvm" ≠ none →
          (cmdBuildQcow2.RunE w flags [source, dest]).1
              = [.lookupEnv "OSBUILD_NO_KVM", .stat "/dev/kvm"]
            ∧ ∃ err, (cmdBuildQcow2.RunE w flags [source, dest]).2 = .error err) := by
  obtain ⟨h1, h2, h3, h4⟩ := stages_summary w flags source dest
  refine ⟨h1, h3, ?_, h4, ?_⟩
  · intro e he n hn
    exact h2 n (List.mem_filterMap.2 ⟨e, he, hn⟩)
  · intro hE hS
    cases hS2 : w.Stat "/dev/kvm" with
    | none => exact absurd hS2 hS
    | some msg =>
      have hK : KVMPreflightCheck w =
          ([.lookupEnv "OSBUILD_NO_KVM", .stat "/dev/kvm"],
            some (.wrapError
              ("failed to access /dev/kvm; you can set OSBUILD_NO_KVM to bypass this at the cost of performance: "
                ++ msg) (.osError msg))) := by
        simp [KVMPreflightCheck, hE, hS2, GoError.Error]
      rw [RunE_preflight_failed w flags source dest _ (by rw [hK])]
      rw [hK]
      exact ⟨rfl, _, rfl⟩

/-- Witness of C7: without KVM and without the bypass the run stops after the
stat. -/
theorem stages_in_sequence_witness :
    (cmdBuildQcow2.RunE noKvmWorld init ["docker://a:1", "out.qcow2"]).1
        = [.lookupEnv "OSBUILD_NO_KVM", .stat "/dev/kvm"]
      ∧ ∃ err, (cmdBuildQcow2.RunE noKvmWorld init ["docker://a:1", "out.qcow2"]).2
          = .error err :=
  (stages_in_sequence noKvmWorld init "docker://a:1" "out.qcow2").2.2.2.2 rfl
    (by simp [noKvmWorld])

/-! ## Failure of the preallocator -/

/-- Counterexample to C8 as stated: `build-qcow2 docker://a:1 tmp/config.json`
in a world where `qemu-img` exits with status 3.  The config was written, the
program exits with 3, and the program itself has written the destination:
the config document went to `tmp/config.json`, which here is `DEST`. -/
theorem preallocator_failure_dest_written :
    configWritten (childExitWorld "qemu-img" 3) init "docker://a:1"
      ∧ (childExitWorld "qemu-img" 3).Run "qemu-img"
          ["create", "-f", "qcow2", "tmp/config.json", "10240M"] = .finished (.exited 3)
      ∧ (main (childExitWorld "qemu-img" 3)
          (.buildQcow2 init ["docker://a:1", "tmp/config.json"])).2 = 3
      ∧ Effect.writeFile "tmp/config.json"
          "\x7b\"SourceTransport\":\"docker://\",\"Source\":\"docker://a:1\",\"InstallArgs\":[\"--target-imgref=docker://a:1\"],\"Disk\":\"/dev/disk/by-id/virtio-target\"\x7d"
          0o644
          ∈ (main (childExitWorld "qemu-img" 3)
              (.buildQcow2 init ["docker://a:1", "tmp/config.json"])).1
      ∧ ∃ e ∈ (main (childExitWorld "qemu-img" 3)
            (.buildQcow2 init ["docker://a:1", "tmp/config.json"])).1,
          e.modifies = some "tmp/config.json" := by
  have h : main (childExitWorld "qemu-img" 3)
      (.buildQcow2 init ["docker://a:1", "tmp/config.json"]) =
      ([.lookupEnv "OSBUILD_NO_KVM", .stat "/dev/kvm", .mkdirAll "tmp" 0o755,
        .writeFile "tmp/config.json"
          "\x7b\"SourceTransport\":\"docker://\",\"Source\":\"docker://a:1\",\"InstallArgs\":[\"--target-imgref=docker://a:1\"],\"Disk\":\"/dev/disk/by-id/virtio-target\"\x7d"
          0o644,
        .run "qemu-img" ["create", "-f", "qcow2", "tmp/config.json", "10240M"] false],
       3) := rfl
  rw [h]
  refine ⟨⟨rfl, rfl, rfl⟩, by decide, rfl, by simp, ?_⟩
  exact ⟨_, List.mem_cons_of_mem _ (List.mem_cons_of_mem _ (List.mem_cons_of_mem _
    (List.mem_cons_self _ _))), rfl⟩

/-- C8 (amended): in a run of `build-qcow2 source dest` in which the config
was written and `qemu-img` exits with a non-zero status `k`, the program
exits with status `k`, `qcow2.sh` is not started, the program performs no
remove, the only paths the program itself creates or writes are `tmp` and
`tmp/config.json` (the only file it writes is `tmp/config.json`), so that it
modifies `dest` in no way unless `dest` is one of these two names, and the
`qemu-img` call is the last call of the run. -/
theorem preallocator_failure (w : World) (flags : Flags) (source dest : String)
    (k : Fin 256) (hk : k ≠ 0) (hC : configWritten w flags source)
    (hQ : w.Run "qemu-img" ["create", "-f", "qcow2", dest, Nat.repr flags.sizeMiB ++ "M"]
      = .finished (.exited k)) :
    (main w (.buildQcow2 flags [source, dest])).2 = k.val
      ∧ (∀ args stdin, Effect.run "/usr/lib/osbuildbootc/qcow2.sh" args stdin
          ∉ (main w (.buildQcow2 flags [source, dest])).1)
      ∧ (∀ name, Effect.remove name ∉ (main w (.buildQcow2 flags [source, dest])).1)
      ∧ (∀ name data perm,
          Effect.writeFile name data perm ∈ (main w (.buildQcow2 flags [source, dest])).1 →
          name = "tmp/config.json")
      ∧ (∀ e ∈ (main w (.buildQcow2 flags [source, dest])).1, ∀ path,
          e.modifies = some path → path = "tmp" ∨ path = "tmp/config.json")
      ∧ (dest ≠ "tmp" → dest ≠ "tmp/config.json" →
          ∀ e ∈ (main w (.buildQcow2 flags [source, dest])).1, e.modifies ≠ some dest)
      ∧ (main w (.buildQcow2 flags [source, dest])).1.getLast?
          = some (.run "qemu-img"
              ["create", "-f", "qcow2", dest, Nat.repr flags.sizeMiB ++ "M"] false) := by
  have hR : RunCmdSync w "qemu-img" (qemuImgArgs dest flags.sizeMiB)
      = some (.exitError (.exited k)) := cmdRun_exited w _ _ k hk hQ
  have hE := RunE_qemu_img_failed w flags source dest _ hC hR
  rw [← Execute_buildQcow2_pair] at hE
  rw [main_of_exitError w _ _ _ hE, exitStatus_exited]
  have h1 := preflight_no_run w
  have h2 := preflight_no_remove w
  have h3 := preflight_no_writeFile w
  have h4 := preflight_no_modifies w
  have hmod : ∀ e ∈ (KVMPreflightCheck w).1 ++
        [.mkdirAll "tmp" 0o755,
         .writeFile "tmp/config.json" (encodeConfig (buildConfig flags source)) 0o644,
         .run "qemu-img" (qemuImgArgs dest flags.sizeMiB) false], ∀ path,
      e.modifies = some path → path = "tmp" ∨ path = "tmp/config.json" := by
    intro e he path hp
    rcases List.mem_append.1 he with hpre | hrest
    · rw [h4 e hpre] at hp
      cases hp
    · simp only [List.mem_cons, List.mem_singleton, List.not_mem_nil, or_false] at hrest
      rcases hrest with rfl | rfl | rfl
      · left
        simpa [Effect.modifies] using hp.symm
      · right
        simpa [Effect.modifies] using hp.symm
      · simp [Effect.modifies] at hp
  refine ⟨rfl, ?_, ?_, ?_, hmod, ?_, ?_⟩
  · intro args stdin
    simp [h1]
  · intro name
    simp [h2]
  · intro name data perm
    simp only [List.mem_append, h3, false_or]
    simp
    intro hn _ _
    exact hn
  · intro hd1 hd2 e he hp
    rcases hmod e he dest hp with h | h
    · exact hd1 h
    · exact hd2 h
  · simp [qemuImgArgs, sprintfSize]

/-- Witness of C8: `qemu-img` exits with status 3; the program exits with 3
and no call of the program modifies `out.qcow2`. -/
theorem preallocator_failure_witness :
    (main (childExitWorld "qemu-img" 3) (.buildQcow2 init ["docker://a:1", "out.qcow2"])).2
        = 3
      ∧ ∀ e ∈ (main (childExitWorld "qemu-img" 3)
            (.buildQcow2 init ["docker://a:1", "out.qcow2"])).1,
          e.modifies ≠ some "out.qcow2" :=
  ⟨(preallocator_failure (childExitWorld "qemu-img" 3) init "docker://a:1" "out.qcow2" 3
      (by decide) ⟨rfl, rfl, rfl⟩ (by decide)).1,
    (preallocator_failure (childExitWorld "qemu-img" 3) init "docker://a:1" "out.qcow2" 3
      (by decide) ⟨rfl, rfl, rfl⟩ (by decide)).2.2.2.2.2.1 (by decide) (by decide)⟩

/-! ## The preallocation command -/

/-- C10: for every destination and every size in the unsigned 64-bit range,
0 included, a run of `build-qcow2` that has written its config starts
`qemu-img` with exactly the arguments `create -f qcow2 dest sM`, where `s` is
the decimal representation of the size, and starts `qemu-img` in no other way;
the size without a `--size` flag is 10240. -/
theorem preallocate_invocation (w : World) (flags : Flags) (source dest : String)
    (_hsize : flags.sizeMiB < 2 ^ 64) (hC : configWritten w flags source) :
    Effect.run "qemu-img" ["create", "-f", "qcow2", dest, Nat.repr flags.sizeMiB ++ "M"] false
        ∈ (Execute w (.buildQcow2 flags [source, dest])).1
      ∧ (∀ args stdin,
          Effect.run "qemu-img" args stdin ∈ (Execute w (.buildQcow2 flags [source, dest])).1 →
          args = ["create", "-f", "qcow2", dest, Nat.repr flags.sizeMiB ++ "M"]
            ∧ stdin = false)
      ∧ init.sizeMiB = 10240
      ∧ sprintfSize 0 = "0M"
      ∧ sprintfSize 10240 = "10240M"
      ∧ sprintfSize (2 ^ 64 - 1) = "18446744073709551615M" := by
  refine ⟨?_, ?_, rfl, by decide, by decide, by decide⟩
  · rw [Execute_buildQcow2_pair]
    apply RunE_cases w flags source dest
      (fun r => Effect.run "qemu-img"
        ["create", "-f", "qcow2", dest, Nat.repr flags.sizeMiB ++ "M"] false ∈ r.1)
    · intro err hE
      rw [hC.1] at hE
      cases hE
    · intro msg _ hE
      rw [hC.2.1] at hE
      cases hE
    · intro msg _ _ hE
      rw [hC.2.2] at hE
      cases hE
    all_goals intros
    all_goals simp [qemuImgArgs, sprintfSize]
  · intro args stdin
    rw [Execute_buildQcow2_pair]
    have h1 := preflight_no_run w "qemu-img" args stdin
    apply RunE_cases w flags source dest
      (fun r => Effect.run "qemu-img" args stdin ∈ r.1 →
        args = ["create", "-f", "qcow2", dest, Nat.repr flags.sizeMiB ++ "M"]
          ∧ stdin = false)
    all_goals intros
    all_goals simp_all [qemuImgArgs, sprintfSize]

/-- Witness of C10: size 0 in the world where every call succeeds. -/
theorem preallocate_invocation_witness :
    Effect.run "qemu-img" ["create", "-f", "qcow2", "out.qcow2", "0M"] false
      ∈ (Execute okWorld (.buildQcow2 { init with sizeMiB := 0 }
          ["docker://a:1", "out.qcow2"])).1 :=
  (preallocate_invocation okWorld { init with sizeMiB := 0 } "docker://a:1" "out.qcow2"
    (by decide) ⟨rfl, rfl, rfl⟩).1

/-! ## The exit status of the program -/

/-- Counterexample to C4 as stated: `build-qcow2 docker://a:1 out.qcow2` in a
world where the helper `qcow2.sh` is terminated by a signal after the disk
was preallocated, and `vmshell` in a world where `vmshell.sh` is.  The run
fails, the child did not exit with a status of its own, and yet the program
prints no `error:` line and exits with status 255, not 1: `ExitCode()` is -1
and `main` passes it to `os.Exit`. -/
theorem signal_killed_child_exit :
    diskAllocated (childSignalWorld "/usr/lib/osbuildbootc/qcow2.sh" "killed") init
        "docker://a:1" "out.qcow2"
      ∧ (childSignalWorld "/usr/lib/osbuildbootc/qcow2.sh" "killed").Run
          "/usr/lib/osbuildbootc/qcow2.sh" ["out.qcow2", "tmp/config.json"]
          = .finished (.signaled "killed")
      ∧ (Execute (childSignalWorld "/usr/lib/osbuildbootc/qcow2.sh" "killed")
          (.buildQcow2 init ["docker://a:1", "out.qcow2"])).2
          = .error (.exitError (.signaled "killed"))
      ∧ (main (childSignalWorld "/usr/lib/osbuildbootc/qcow2.sh" "killed")
          (.buildQcow2 init ["docker://a:1", "out.qcow2"])).2 = 255
      ∧ (∀ msg, Effect.stderr msg
          ∉ (main (childSignalWorld "/usr/lib/osbuildbootc/qcow2.sh" "killed")
              (.buildQcow2 init ["docker://a:1", "out.qcow2"])).1)
      ∧ (main (childSignalWorld "/usr/lib/osbuildbootc/vmshell.sh" "killed")
          (.vmshell [])).2 = 255
      ∧ (∀ msg, Effect.stderr msg
          ∉ (main (childSignalWorld "/usr/lib/osbuildbootc/vmshell.sh" "killed")
              (.vmshell [])).1) := by
  have h : main (childSignalWorld "/usr/lib/osbuildbootc/qcow2.sh" "killed")
      (.buildQcow2 init ["docker://a:1", "out.qcow2"]) =
      ([.lookupEnv "OSBUILD_NO_KVM", .stat "/dev/kvm", .mkdirAll "tmp" 0o755,
        .writeFile "tmp/config.json"
          "\x7b\"SourceTransport\":\"docker://\",\"Source\":\"docker://a:1\",\"InstallArgs\":[\"--target-imgref=docker://a:1\"],\"Disk\":\"/dev/disk/by-id/virtio-target\"\x7d"
          0o644,
        .run "qemu-img" ["create", "-f", "qcow2", "out.qcow2", "10240M"] false,
        .infof "Generating image; source=docker://a:1 target=docker://a:1",
        .run "/usr/lib/osbuildbootc/qcow2.sh" ["out.qcow2", "tmp/config.json"] false,
        .remove "out.qcow2"],
       255) := rfl
  have hv : main (childSignalWorld "/usr/lib/osbuildbootc/vmshell.sh" "killed")
      (.vmshell []) = ([.run "/usr/lib/osbuildbootc/vmshell.sh" [] true], 255) := rfl
  rw [h, hv]
  exact ⟨⟨⟨rfl, rfl, rfl⟩, by decide⟩, by decide, rfl, rfl, fun msg => by simp, rfl,
    fun msg => by simp⟩

/-- C4 (amended): the exit status of `build-qcow2 source dest` and of
`vmshell` in the cases the claim names.  If the last child (`qcow2.sh`,
respectively `vmshell.sh`) ran and exited with a non-zero status `k`, the
program exits with `k`.  If the run fails because the preflight fails, `tmp`
cannot be created, `tmp/config.json` cannot be written, a child (`qemu-img`,
`qcow2.sh`, `vmshell.sh`) cannot be started, or more generally the runner of
`qemu-img` returns an error that is not an exit error, the program prints
`error: <message>` to standard error and exits with 1 (serializing the
config never fails).  If nothing fails the program exits with 0 and prints no
diagnostic.  A child that is terminated by a signal is none of these cases
and nothing is stated for it. -/
theorem exit_code_propagation (w : World) (flags : Flags) (source dest : String) :
    (∀ k : Fin 256, k ≠ 0 → diskAllocated w flags source dest →
        w.Run "/usr/lib/osbuildbootc/qcow2.sh" [dest, "tmp/config.json"]
          = .finished (.exited k) →
        (main w (.buildQcow2 flags [source, dest])).2 = k.val)
      ∧ (∀ k : Fin 256, k ≠ 0 →
        w.Run "/usr/lib/osbuildbootc/vmshell.sh" [] = .finished (.exited k) →
        (main w (.vmshell [])).2 = k.val)
      ∧ (∀ msg, w.LookupEnv "OSBUILD_NO_KVM" = none → w.Stat "/dev/kvm" = some msg →
        (main w (.buildQcow2 flags [source, dest])).2 = 1
          ∧ Effect.stderr ("error: "
              ++ ("failed to access /dev/kvm; you can set OSBUILD_NO_KVM to bypass this at the cost of performance: "
                ++ msg)
              ++ "\n") ∈ (main w (.buildQcow2 flags [source, dest])).1)
      ∧ (∀ msg, (KVMPreflightCheck w).2 = none → w.MkdirAll "tmp" 0o755 = some msg →
        (main w (.buildQcow2 flags [source, dest])).2 = 1
          ∧ Effect.stderr ("error: " ++ msg ++ "\n")
              ∈ (main w (.buildQcow2 flags [source, dest])).1)
      ∧ (∀ msg, (KVMPreflightCheck w).2 = none → w.MkdirAll "tmp" 0o755 = none →
        w.WriteFile "tmp/config.json" (encodeConfig (buildConfig flags source)) 0o644
          = some msg →
        (main w (.buildQcow2 flags [source, dest])).2 = 1
          ∧ Effect.stderr ("error: " ++ msg ++ "\n")
              ∈ (main w (.buildQcow2 flags [source, dest])).1)
      ∧ (∀ config, ∃ buf, jsonMarshal config = .ok buf)
      ∧ (∀ msg, configWritten w flags source →
        w.Run "qemu-img" ["create", "-f", "qcow2", dest, Nat.repr flags.sizeMiB ++ "M"]
          = .startFailed msg →
        (main w (.buildQcow2 flags [source, dest])).2 = 1
          ∧ Effect.stderr ("error: " ++ msg ++ "\n")
              ∈ (main w (.buildQcow2 flags [source, dest])).1)
      ∧ (∀ err, configWritten w flags source →
        RunCmdSync w "qemu-img" ["create", "-f", "qcow2", dest, Nat.repr flags.sizeMiB ++ "M"]
          = some err →
        err.asExitError = none →
        (main w (.buildQcow2 flags [source, dest])).2 = 1
          ∧ Effect.stderr ("error: " ++ err.Error ++ "\n")
              ∈ (main w (.buildQcow2 flags [source, dest])).1)
      ∧ (∀ msg, diskAllocated w flags source dest →
        w.Run "/usr/lib/osbuildbootc/qcow2.sh" [dest, "tmp/config.json"] = .startFailed msg →
        (main w (.buildQcow2 flags [source, dest])).2 = 1
          ∧ Effect.stderr ("error: " ++ msg ++ "\n")
              ∈ (main w (.buildQcow2 flags [source, dest])).1)
      ∧ (∀ msg, w.Run "/usr/lib/osbuildbootc/vmshell.sh" [] = .startFailed msg →
        (main w (.vmshell [])).2 = 1
          ∧ Effect.stderr ("error: " ++ msg ++ "\n") ∈ (main w (.vmshell [])).1)
      ∧ (diskAllocated w flags source dest →
        w.Run "/usr/lib/osbuildbootc/qcow2.sh" [dest, "tmp/config.json"]
          = .finished (.exited 0) →
        (main w (.buildQcow2 flags [source, dest])).2 = 0
          ∧ ∀ msg, Effect.stderr msg ∉ (main w (.buildQcow2 flags [source, dest])).1)
      ∧ (w.Run "/usr/lib/osbuildbootc/vmshell.sh" [] = .finished (.exited 0) →
        (main w (.vmshell [])).2 = 0
          ∧ ∀ msg, Effect.stderr msg ∉ (main w (.vmshell [])).1) := by
  refine ⟨?_, ?_, ?_, ?_, ?_, fun config => ⟨_, rfl⟩, ?_, ?_, ?_, ?_, ?_, ?_⟩
  · intro k hk hD hH
    have hQ := (cmdRun_eq_none_iff w _ _).2 hD.2
    have hE := RunE_helper_failed w flags source dest _ hD.1 hQ (cmdRun_exited w _ _ k hk hH)
    rw [← Execute_buildQcow2_pair] at hE
    rw [main_of_exitError w _ _ _ hE, exitStatus_exited]
  · intro k hk hH
    have hE : Execute w (.vmshell []) =
        ([.run "/usr/lib/osbuildbootc/vmshell.sh" [] true],
          .error (.exitError (.exited k))) := by
      rw [Execute_vmshell]
      simp [cmdVMShell.RunE, cmdRun_exited w _ _ k hk hH]
    rw [main_of_exitError w _ _ _ hE, exitStatus_exited]
  · intro msg hL hS
    have hK : KVMPreflightCheck w =
        ([.lookupEnv "OSBUILD_NO_KVM", .stat "/dev/kvm"],
          some (.wrapError
            ("failed to access /dev/kvm; you can set OSBUILD_NO_KVM to bypass this at the cost of performance: "
              ++ msg) (.osError msg))) := by
      simp [KVMPreflightCheck, hL, hS, GoError.Error]
    have hE := RunE_preflight_failed w flags source dest _ (show (KVMPreflightCheck w).2 = _ by
      rw [hK])
    rw [← Execute_buildQcow2_pair] at hE
    rw [main_of_wrapError w _ _ _ _ hE]
    exact ⟨rfl, by simp⟩
  · intro msg hP hM
    have hE := RunE_mkdir_failed w flags source dest msg hP hM
    rw [← Execute_buildQcow2_pair] at hE
    rw [main_of_osError w _ _ _ hE]
    exact ⟨rfl, by simp⟩
  · intro msg hP hM hW
    have hE := RunE_write_failed w flags source dest msg hP hM hW
    rw [← Execute_buildQcow2_pair] at hE
    rw [main_of_osError w _ _ _ hE]
    exact ⟨rfl, by simp⟩
  · intro msg hC hQ
    have hE := RunE_qemu_img_failed w flags source dest _ hC
      (cmdRun_startFailed w "qemu-img" (qemuImgArgs dest flags.sizeMiB) msg hQ)
    rw [← Execute_buildQcow2_pair] at hE
    rw [main_of_osError w _ _ _ hE]
    exact ⟨rfl, by simp⟩
  · intro err hC hQ hne
    have hE := RunE_qemu_img_failed w flags source dest err hC hQ
    rw [← Execute_buildQcow2_pair] at hE
    rw [main_of_other w _ _ _ hE hne]
    exact ⟨rfl, by simp⟩
  · intro msg hD hH
    have hQ := (cmdRun_eq_none_iff w _ _).2 hD.2
    have hE := RunE_helper_failed w flags source dest _ hD.1 hQ (cmdRun_startFailed w _ _ msg hH)
    rw [← Execute_buildQcow2_pair] at hE
    rw [main_of_osError w _ _ _ hE]
    exact ⟨rfl, by simp⟩
  · intro msg hH
    have hE : Execute w (.vmshell []) =
        ([.run "/usr/lib/osbuildbootc/vmshell.sh" [] true], .error (.osError msg)) := by
      rw [Execute_vmshell]
      simp [cmdVMShell.RunE, cmdRun_startFailed w _ _ msg hH]
    rw [main_of_osError w _ _ _ hE]
    exact ⟨rfl, by simp⟩
  · intro hD hH
    have hQ := (cmdRun_eq_none_iff w _ _).2 hD.2
    have hE := RunE_succeeded w flags source dest hD.1 hQ ((cmdRun_eq_none_iff w _ _).2 hH)
    rw [← Execute_buildQcow2_pair] at hE
    rw [main_of_nil w _ _ hE]
    refine ⟨rfl, fun msg => ?_⟩
    rcases preflight_trace w with h | h <;> simp [h]
  · intro hH
    have hE : Execute w (.vmshell []) =
        ([.run "/usr/lib/osbuildbootc/vmshell.sh" [] true], .nil) := by
      rw [Execute_vmshell]
      simp [cmdVMShell.RunE, (cmdRun_eq_none_iff w _ _).2 hH]
    rw [main_of_nil w _ _ hE]
    exact ⟨rfl, fun msg => by simp⟩

/-- Witness of C4: the helper `qcow2.sh` exits with status 7 after the disk
was preallocated, and the program exits with 7. -/
theorem exit_code_propagation_witness :
    diskAllocated (childExitWorld "/usr/lib/osbuildbootc/qcow2.sh" 7) init
        "docker://a:1" "out.qcow2"
      ∧ (main (childExitWorld "/usr/lib/osbuildbootc/qcow2.sh" 7)
          (.buildQcow2 init ["docker://a:1", "out.qcow2"])).2 = 7 :=
  ⟨⟨⟨rfl, rfl, rfl⟩, by decide⟩,
    (exit_code_propagation (childExitWorld "/usr/lib/osbuildbootc/qcow2.sh" 7) init
      "docker://a:1" "out.qcow2").1 7 (by decide) ⟨⟨rfl, rfl, rfl⟩, by decide⟩ (by decide)⟩

end Osbuildbootc
